import Mathlib

/-
Verification of the conversational-sales service: a shallow embedding of the
product search engine (src/product_search.py) and the conversation manager
(src/conversation.py), with theorems checking the natural-language
specification against the code.

Modelling conventions:
- Python strings are Lean `String`; scanning operations work on `String.data`
  (the underlying `List Char`) so that concrete instances reduce in the kernel.
- Python `str.lower` is `pyLower` (character-wise `Char.toLower`, adequate for
  the ASCII data in this repository), `str.split()` is `pyWords`, and the
  substring operator `in` is `strContains`.
- Python `list.sort(key=..., reverse=True)` is a stable descending sort,
  modelled by the stable insertion sort `sortByKeyDesc`.
- Fallible Python code (raised exceptions) is modelled with `Except String`,
  the `String` carrying the exception message.
- Wall-clock timestamps (`datetime.now()`) and log/print side effects carry no
  information used by any property and are elided from the embedding.
-/

/-- Python substring test `needle in haystack` on character lists: true iff
`needle` occurs contiguously in the haystack (the empty needle always
matches, as in Python). -/
def lcontains (needle : List Char) : List Char → Bool
  | [] => needle.isEmpty
  | c :: t => needle.isPrefixOf (c :: t) || lcontains needle t

/-- Python `needle in haystack` on strings. -/
def strContains (haystack needle : String) : Bool :=
  lcontains needle.data haystack.data

/-- Python `str.lower()` (character-wise; the catalog and trigger phrases are
ASCII, where this agrees with Python). -/
def pyLower (s : String) : String :=
  ⟨s.data.map Char.toLower⟩

/-- Python `str.split()` (no argument): maximal runs of non-whitespace
characters; never produces empty tokens. `acc` holds the current token
reversed. -/
def pyWords (acc : List Char) : List Char → List (List Char)
  | [] => if acc.isEmpty then [] else [acc.reverse]
  | c :: t =>
    if c.isWhitespace then
      if acc.isEmpty then pyWords [] t else acc.reverse :: pyWords [] t
    else pyWords (c :: acc) t

/-- Product record, from the `Product` dataclass in src/product_search.py.
Note the dataclass has NO `monthly_cost`, `data_allowance` or `storage`
field (those belong to the older schema in minimal_backend.py); this matters
for `prefScore` below. -/
structure Product where
  name : String
  description : String
  url : String
  storage_options : List String
  brand : String
  features : List String
  device_cost : Option Int
deriving DecidableEq, Repr

/-- Brand derivation from the product name, from `Product.__post_init__`. -/
def deriveBrand (name : String) : String :=
  let n := pyLower name
  if strContains n "iphone" || strContains n "apple" then "Apple"
  else if strContains n "samsung" || strContains n "galaxy" then "Samsung"
  else if strContains n "google" || strContains n "pixel" then "Google"
  else if strContains n "oneplus" then "OnePlus"
  else "Unknown"

/-- Constructs a `Product` the way the dataclass does: whatever brand is
supplied is overwritten from the name by `__post_init__`. -/
def Product.make (name description url : String) (storage_options : List String)
    (features : List String) (device_cost : Option Int) : Product :=
  ⟨name, description, url, storage_options, deriveBrand name, features, device_cost⟩

/-- `Product.get_searchable_text`. -/
def Product.getSearchableText (p : Product) : String :=
  p.name ++ " " ++ p.brand ++ " " ++ p.description ++ " " ++ String.intercalate " " p.features

/-- A ranked search hit: the product dict together with its `score` entry.
Lexical and preference scores are integers in the source; the semantic
similarity is a float but is treated as an opaque oracle (see
`search_advanced`), so a single integer score field suffices. -/
structure SearchResult where
  product : Product
  score : Int
deriving DecidableEq, Repr

/-- One step of stable descending insertion: `x` goes after every earlier
element with a strictly larger key and before the first element whose key is
less than or equal to its own. -/
def insertByKey (key : α → Int) (x : α) : List α → List α
  | [] => [x]
  | y :: ys => if key x < key y then y :: insertByKey key x ys else x :: y :: ys

/-- Stable sort by `key` descending: the meaning of Python
`list.sort(key=..., reverse=True)` (Timsort is stable and `reverse=True`
preserves the original order of equal keys). -/
def sortByKeyDesc (key : α → Int) : List α → List α
  | [] => []
  | x :: xs => insertByKey key x (sortByKeyDesc key xs)

theorem mem_insertByKey (key : α → Int) (x a : α) (l : List α) :
    a ∈ insertByKey key x l ↔ a = x ∨ a ∈ l := by
  induction l with
  | nil => simp [insertByKey]
  | cons y ys ih =>
    unfold insertByKey
    by_cases h : key x < key y
    · simp only [if_pos h, List.mem_cons, ih]
      tauto
    · simp only [if_neg h, List.mem_cons]

theorem mem_sortByKeyDesc (key : α → Int) (a : α) (l : List α) :
    a ∈ sortByKeyDesc key l ↔ a ∈ l := by
  induction l with
  | nil => simp [sortByKeyDesc]
  | cons x xs ih =>
    unfold sortByKeyDesc
    rw [mem_insertByKey, ih]
    simp

theorem pairwise_insertByKey (key : α → Int) (x : α) (l : List α)
    (h : l.Pairwise (fun a b => key b ≤ key a)) :
    (insertByKey key x l).Pairwise (fun a b => key b ≤ key a) := by
  induction l with
  | nil => simp [insertByKey]
  | cons y ys ih =>
    rw [List.pairwise_cons] at h
    unfold insertByKey
    by_cases hk : key x < key y
    · rw [if_pos hk, List.pairwise_cons]
      refine ⟨?_, ih h.2⟩
      intro a ha
      rcases (mem_insertByKey key x a ys).mp ha with rfl | ha
      · exact le_of_lt hk
      · exact h.1 a ha
    · rw [if_neg hk, List.pairwise_cons]
      push_neg at hk
      refine ⟨?_, List.pairwise_cons.mpr h⟩
      intro a ha
      rcases List.mem_cons.mp ha with rfl | ha
      · exact hk
      · exact le_trans (h.1 a ha) hk

theorem pairwise_sortByKeyDesc (key : α → Int) (l : List α) :
    (sortByKeyDesc key l).Pairwise (fun a b => key b ≤ key a) := by
  induction l with
  | nil => simp [sortByKeyDesc]
  | cons x xs ih => exact pairwise_insertByKey key x _ ih

theorem filter_insertByKey_self (key : α → Int) (x : α) (l : List α) :
    (insertByKey key x l).filter (fun a => decide (key a = key x))
      = x :: l.filter (fun a => decide (key a = key x)) := by
  induction l with
  | nil => simp [insertByKey]
  | cons y ys ih =>
    unfold insertByKey
    by_cases hk : key x < key y
    · have hy : ¬ (key y = key x) := by omega
      rw [if_pos hk]
      simp [List.filter_cons, hy, ih]
    · rw [if_neg hk]
      simp [List.filter_cons]

theorem filter_insertByKey_other (key : α → Int) (x : α) (l : List α) (c : Int)
    (hx : key x ≠ c) :
    (insertByKey key x l).filter (fun a => decide (key a = c))
      = l.filter (fun a => decide (key a = c)) := by
  induction l with
  | nil => simp [insertByKey, hx]
  | cons y ys ih =>
    unfold insertByKey
    by_cases hk : key x < key y
    · rw [if_pos hk]
      simp only [List.filter_cons, ih]
    · rw [if_neg hk]
      simp [List.filter_cons, hx]

/-- Stability of the descending sort: within each score class the original
order is preserved. -/
theorem filter_sortByKeyDesc (key : α → Int) (l : List α) (c : Int) :
    (sortByKeyDesc key l).filter (fun a => decide (key a = c))
      = l.filter (fun a => decide (key a = c)) := by
  induction l with
  | nil => simp [sortByKeyDesc]
  | cons x xs ih =>
    unfold sortByKeyDesc
    by_cases hx : key x = c
    · subst hx
      rw [filter_insertByKey_self, ih]
      simp [List.filter_cons]
    · rw [filter_insertByKey_other key x _ c hx, ih]
      simp [List.filter_cons, hx]

/-- Lexical score of one product against a lowercased query, from
`ProductSearchEngine.search_simple`: the sequential `score +=` statements of
the source are written as a sum of guarded contributions in the same order
(name +5, brand substring +4, description +2, +3 per matching feature, exact
brand equality +10, any query token in the name +3). -/
def lexScore (ql : String) (p : Product) : Int :=
  (if strContains (pyLower p.name) ql then 5 else 0)
  + (if strContains (pyLower p.brand) ql then 4 else 0)
  + (if strContains (pyLower p.description) ql then 2 else 0)
  + 3 * ((p.features.filter (fun f => strContains (pyLower f) ql)).length : Int)
  + (if pyLower p.brand = ql then 10 else 0)
  + (if (pyWords [] ql.data).any (fun w => lcontains w (pyLower p.name).data) then 3 else 0)

/-- `ProductSearchEngine.search_simple(query, max_results)`: guard for falsy
query or empty catalog, score every product, keep strictly positive scores,
stable-sort descending, truncate to `max_results`. -/
def search_simple (products : List Product) (query : String) (max_results : Nat) :
    List SearchResult :=
  if query.data.isEmpty || products.isEmpty then []
  else
    let ql := pyLower query
    let results := products.filterMap (fun p =>
      let s := lexScore ql p
      if 0 < s then some (⟨p, s⟩ : SearchResult) else none)
    (sortByKeyDesc SearchResult.score results).take max_results

/-- An embedding vector. The numeric content of vectors and of the floating
point cosine similarity is irrelevant to every property checked here, so the
similarity computation is passed in as an opaque integer-valued oracle
`cosSim` rather than modelled bit by bit. -/
abbrev Vec : Type := List Int

/-- Search-engine state: the loaded catalog and the optional embedding matrix
(`self.products`, `self.product_embeddings`; `none` is Python `None`). -/
structure EngineState where
  products : List Product
  productEmbeddings : Option (List Vec)

/-- `ProductSearchEngine.search_advanced(query, max_results)`: if the catalog
is empty or no embeddings are loaded, fall back to `search_simple`; otherwise
embed the query (`embedQuery` models the provider call, failing with an
exception message), rank by similarity descending (stable), truncate,
and look indices back up in the catalog. A provider failure is caught and
falls back to `search_simple`. -/
def search_advanced (cosSim : Vec → Vec → Int) (st : EngineState)
    (embedQuery : String → Except String Vec) (query : String) (max_results : Nat) :
    List SearchResult :=
  match st.productEmbeddings with
  | none => search_simple st.products query max_results
  | some embs =>
    if st.products.isEmpty then search_simple st.products query max_results
    else
      match embedQuery query with
      | Except.error _ => search_simple st.products query max_results
      | Except.ok qv =>
        let sims := embs.enum.map (fun iv => (cosSim qv iv.2, iv.1))
        let sorted := sortByKeyDesc Prod.fst sims
        (sorted.take max_results).filterMap (fun si =>
          (st.products.get? si.2).map (fun p => (⟨p, si.1⟩ : SearchResult)))

/-- `ProductSearchEngine.search(query, max_results)` simply delegates to
`search_advanced`. -/
def search (cosSim : Vec → Vec → Int) (st : EngineState)
    (embedQuery : String → Except String Vec) (query : String) (max_results : Nat) :
    List SearchResult :=
  search_advanced cosSim st embedQuery query max_results

/-- The embedding-generation loop of `_initialize_search`: one provider call
per product text, aborting with the wrapped RuntimeError message on the first
failure. -/
def genEmbeddings (provider : String → Except String Vec) :
    List Product → Except String (List Vec)
  | [] => Except.ok []
  | p :: ps =>
    match provider p.getSearchableText with
    | Except.error e => Except.error ("Failed to generate embeddings: " ++ e)
    | Except.ok v => (genEmbeddings provider ps).map (fun vs => v :: vs)

/-- `ProductSearchEngine._initialize_search`, as a function from the catalog,
the cached embedding file (`none` when the file is missing or unreadable),
the embedding provider, and the previous in-memory embeddings to the new
embeddings. An empty catalog returns early leaving the previous value; a
cache whose length matches the catalog is adopted; otherwise fresh embeddings
are generated and any provider failure is re-raised as a RuntimeError out of
the engine (writing the cache file is a side effect elided here). -/
def initSearch (products : List Product) (cache : Option (List Vec))
    (provider : String → Except String Vec) (prev : Option (List Vec)) :
    Except String (Option (List Vec)) :=
  if products.isEmpty then Except.ok prev
  else
    match cache with
    | some c =>
      if c.length = products.length then Except.ok (some c)
      else
        match genEmbeddings provider products with
        | Except.error e => Except.error ("Error initializing OpenAI search: " ++ e)
        | Except.ok es => Except.ok (some es)
    | none =>
      match genEmbeddings provider products with
      | Except.error e => Except.error ("Error initializing OpenAI search: " ++ e)
      | Except.ok es => Except.ok (some es)

/-- The preferences dict passed to `search_by_preferences`. `none` models an
absent key; `features` defaults to the empty list exactly as
`preferences.get("features", [])` does. -/
structure PrefDict where
  brand_preference : Option String := none
  budget_min : Option Int := none
  budget_max : Option Int := none
  data_usage : Option String := none
  storage_preference : Option String := none
  features : List String := []
deriving DecidableEq, Repr

/-- Exception message for `product.data_allowance` on the dataclass of
src/product_search.py, which has no such field. -/
def dataAllowanceErr : String :=
  "AttributeError: \x27Product\x27 object has no attribute \x27data_allowance\x27"

/-- Exception message for `product.storage`, likewise missing from the
dataclass. -/
def storageErr : String :=
  "AttributeError: \x27Product\x27 object has no attribute \x27storage\x27"

/-- Per-product score of `search_by_preferences`, with the exception
behavior of the source reproduced faithfully:
- brand: +10 when the (truthy) brand preference equals the brand;
- budget: the source reads `product.monthly_cost`, an attribute the
  dataclass does not have; the AttributeError is swallowed by the bare
  `except: pass`, so the budget block NEVER contributes anything and
  `budget_min`/`budget_max` are never read;
- data usage: comparing against the "unlimited"/"heavy"/"light" bands reads
  `product.data_allowance`, which does not exist, raising an uncaught
  AttributeError;
- features: +4 per preferred feature occurring in the searchable text;
- storage: a truthy storage preference reads `product.storage`, which does
  not exist, raising an uncaught AttributeError. -/
def prefScore (prefs : PrefDict) (p : Product) : Except String Int :=
  let brandPref := prefs.brand_preference.getD ""
  let s1 : Int :=
    if brandPref.data.isEmpty = false && pyLower p.brand = pyLower brandPref then 10 else 0
  let dataUsage := pyLower (prefs.data_usage.getD "")
  if dataUsage = "unlimited" || dataUsage = "heavy" || dataUsage = "light" then
    Except.error dataAllowanceErr
  else
    let s2 := s1 + 4 * ((prefs.features.filter
      (fun f => strContains (pyLower p.getSearchableText) (pyLower f))).length : Int)
    let storagePref := pyLower (prefs.storage_preference.getD "")
    if storagePref.data.isEmpty = false then Except.error storageErr
    else Except.ok s2

/-- The scoring loop of `search_by_preferences`: the first product whose
scoring raises aborts the whole call. -/
def scoreAll (prefs : PrefDict) : List Product → Except String (List (Product × Int))
  | [] => Except.ok []
  | p :: ps =>
    match prefScore prefs p with
    | Except.error e => Except.error e
    | Except.ok s => (scoreAll prefs ps).map (fun rest => (p, s) :: rest)

/-- `ProductSearchEngine.search_by_preferences(preferences, max_results)`. -/
def search_by_preferences (products : List Product) (prefs : PrefDict)
    (max_results : Nat) : Except String (List SearchResult) :=
  if products.isEmpty then Except.ok []
  else
    match scoreAll prefs products with
    | Except.error e => Except.error e
    | Except.ok scored =>
      let results := (scored.filter (fun ps => 0 < ps.2)).map
        (fun ps => (⟨ps.1, ps.2⟩ : SearchResult))
      Except.ok ((sortByKeyDesc SearchResult.score results).take max_results)

/-- The five dialogue states of src/conversation.py. -/
inductive ConvState
  | initial
  | insurance
  | accessories
  | watch
  | final
deriving DecidableEq, Repr

/-- Trigger phrase checked first in `process_message` (case sensitive). -/
def insuranceTrigger : String := "Great! Let\x27s get you set up with some insurance."

/-- Trigger phrase checked second (case sensitive). -/
def accessoriesTrigger : String := "Let\x27s look at some accessories for your new phone."

/-- Trigger phrase checked third, against the lowercased reply. -/
def watchTrigger : String := "would you like to pair your new phone with a watch?"

/-- Trigger phrase checked fourth (case sensitive). -/
def finalTrigger : String := "Is there anything else I can help you with today?"

/-- The state transition block of `process_message` (conversation.py lines
345-353): a single if/elif chain over the reply text, the SAME chain in every
state; only the final fallthrough keeps the current state. -/
def nextState (state : ConvState) (text : String) : ConvState :=
  if strContains text insuranceTrigger then ConvState.insurance
  else if strContains text accessoriesTrigger then ConvState.accessories
  else if strContains (pyLower text) watchTrigger then ConvState.watch
  else if strContains text finalTrigger then ConvState.final
  else state

/-- Whether any branch of the if/elif transition chain fires on a reply. -/
def hasTrigger (text : String) : Bool :=
  strContains text insuranceTrigger || strContains text accessoriesTrigger
    || strContains (pyLower text) watchTrigger || strContains text finalTrigger

/-- A conversation turn (`ConversationTurn`); the wall-clock timestamp field
carries no checked information and is elided. -/
structure Turn where
  role : String
  content : String
  recommendations : List SearchResult
deriving DecidableEq, Repr

/-- `UserPreferences` with all-absent defaults; nothing in the manager ever
writes to it. -/
structure UserPreferences where
  budget_min : Option Int := none
  budget_max : Option Int := none
  brand_preference : Option String := none
  storage_preference : Option String := none
  data_usage : Option String := none
  contract_length : Option String := none
  features : List String := []
deriving DecidableEq, Repr

/-- A conversation session (`ConversationSession`): turns, preferences, the
LangChain buffer memory (modelled as the list of saved input/output pairs)
and the dialogue state. `created_at` is a wall-clock value and is elided. -/
structure Session where
  sessionId : String
  turns : List Turn
  preferences : UserPreferences
  memory : List (String × String)
  state : ConvState
deriving DecidableEq, Repr

/-- A freshly constructed `ConversationSession`: empty turns and memory,
default preferences, state INITIAL. -/
def freshSession (sid : String) : Session :=
  ⟨sid, [], {}, [], ConvState.initial⟩

/-- The session store `self.sessions`, an insertion-ordered dict. -/
abbrev SessionStore : Type := List (String × Session)

/-- `_get_or_create_session`: returns the updated store and the session
worked on; an unseen id appends a fresh session. -/
def getOrCreateSession (store : SessionStore) (sid : String) :
    SessionStore × Session :=
  match List.lookup sid store with
  | some s => (store, s)
  | none => (store ++ [(sid, freshSession sid)], freshSession sid)

/-- Replacing the session stored under `sid` (Python mutates the session
object held in the dict in place). -/
def updateStore (store : SessionStore) (sid : String) (s : Session) : SessionStore :=
  store.map (fun kv => if kv.1 = sid then (kv.1, s) else kv)

/-- Helper for `hasProductLink`: after an opening square bracket, scan
non-newline characters until the literal link tail begins. -/
def linkAfterBracket : List Char → Bool
  | [] => false
  | c :: t =>
    ("](http://".data.isPrefixOf (c :: t)) || ("](https://".data.isPrefixOf (c :: t))
      || (c ≠ '\n' && linkAfterBracket t)

/-- The regex test `re.search(r"\[.*?\]\(https?://", response_text)` of
`process_message`: an opening bracket, any run of non-newline characters,
then the closing bracket and an http or https URL opener. -/
def hasProductLink : List Char → Bool
  | [] => false
  | c :: t => (c = '[' && linkAfterBracket t) || hasProductLink t

/-- The successful tail of `process_message` after the completion call
returns `text`: state transition, memory save, turn appends (the assistant
turn logs the recommendations only when the reply contains a product link). -/
def applyTurn (session : Session) (message text : String)
    (recs : List SearchResult) : Session :=
  let loggedRecs := if hasProductLink text.data then recs else []
  { session with
      state := nextState session.state text
      memory := session.memory ++ [(message, text)]
      turns := session.turns ++ [⟨"user", message, []⟩, ⟨"assistant", text, loggedRecs⟩] }

/-- The value returned by `process_message`: the apology dict has no
`recommendations` key, modelled by `none`. -/
structure ChatResult where
  response : String
  recommendations : Option (List SearchResult)
deriving DecidableEq, Repr

/-- The fixed message of the catch-all error handler of `process_message`. -/
def apologyResponse : ChatResult :=
  ⟨"Sorry, I encountered an error. Please try again.", none⟩

/-- `ConversationManager.process_message(message, session_id)`.
Parameters standing for the two external effects: `searchResults` is the
value `self.product_search_engine.search(message)` would return for this
message, and `completion` is the outcome of the LLM chain invocation
(`Except.error` when it raises). `persistOk` is false when
`_save_session_to_file` raises. The single `try/except` of the source means
any failure after session creation yields the apology result while keeping
every in-place session mutation made so far. -/
def processMessage (store : SessionStore) (message sid : String)
    (searchResults : List SearchResult) (completion : Except String String)
    (persistOk : Bool) : SessionStore × ChatResult :=
  let sc := getOrCreateSession store sid
  let recommendations :=
    if sc.2.state = ConvState.initial then searchResults else []
  match completion with
  | Except.error _ => (sc.1, apologyResponse)
  | Except.ok text =>
    let session2 := applyTurn sc.2 message text recommendations
    let store2 := updateStore sc.1 sid session2
    if persistOk then (store2, ⟨text, some recommendations⟩)
    else (store2, apologyResponse)

/-- The value returned by `get_session_info`: either the error dict or the
summary dict (`created_at` elided as a wall-clock value). -/
inductive InfoResult
  | error (message : String)
  | info (sessionId : String) (turnCount : Nat) (preferences : UserPreferences)
deriving DecidableEq, Repr

/-- `ConversationManager.get_session_info(session_id)`; the function reads
the store and never writes it, which the returned (unchanged) store makes
explicit. -/
def getSessionInfo (store : SessionStore) (sid : String) :
    SessionStore × InfoResult :=
  match List.lookup sid store with
  | none => (store, InfoResult.error "Session not found")
  | some s => (store, InfoResult.info sid s.turns.length s.preferences)

theorem lookup_cons {β : Type} (a k : String) (v : β) (l : List (String × β)) :
    List.lookup a ((k, v) :: l) = if a = k then some v else List.lookup a l := by
  simp only [List.lookup]
  by_cases h : a = k
  · simp [h]
  · have hb : (a == k) = false := beq_eq_false_iff_ne.mpr h
    simp [hb, h]

theorem lookup_append_none {β : Type} (a : String) (l1 l2 : List (String × β))
    (h : List.lookup a l1 = none) :
    List.lookup a (l1 ++ l2) = List.lookup a l2 := by
  induction l1 with
  | nil => rfl
  | cons kv t ih =>
    rw [lookup_cons] at h
    rw [List.cons_append, lookup_cons]
    by_cases he : a = kv.1
    · simp [he] at h
    · simp only [if_neg he] at h ⊢
      exact ih h

theorem getOrCreateSession_of_found (store : SessionStore) (sid : String)
    (s : Session) (h : List.lookup sid store = some s) :
    getOrCreateSession store sid = (store, s) := by
  simp [getOrCreateSession, h]

theorem lookup_getOrCreateSession (store : SessionStore) (sid : String) :
    List.lookup sid (getOrCreateSession store sid).1
      = some (getOrCreateSession store sid).2 := by
  unfold getOrCreateSession
  cases h : List.lookup sid store with
  | some s => simp [h]
  | none =>
    simp only [h]
    rw [lookup_append_none sid store _ h, lookup_cons]
    simp

theorem lookup_updateStore (store : SessionStore) (sid : String) (s : Session) :
    List.lookup sid (updateStore store sid s)
      = (List.lookup sid store).map (fun _ => s) := by
  induction store with
  | nil => rfl
  | cons kv t ih =>
    unfold updateStore at ih ⊢
    by_cases h : kv.1 = sid
    · simp only [List.map_cons, if_pos h]
      rw [lookup_cons, lookup_cons]
      simp [h]
    · simp only [List.map_cons, if_neg h]
      have h2 : sid ≠ kv.1 := fun he => h he.symm
      rw [lookup_cons, lookup_cons, if_neg h2, if_neg h2]
      exact ih

theorem nextState_of_not_hasTrigger (s : ConvState) (text : String)
    (h : hasTrigger text = false) : nextState s text = s := by
  unfold hasTrigger at h
  simp only [Bool.or_eq_false_iff] at h
  obtain ⟨⟨⟨h1, h2⟩, h3⟩, h4⟩ := h
  simp [nextState, h1, h2, h3, h4]

theorem nextState_indep_of_hasTrigger (s1 s2 : ConvState) (text : String)
    (h : hasTrigger text = true) : nextState s1 text = nextState s2 text := by
  unfold hasTrigger at h
  unfold nextState
  split_ifs with h1 h2 h3 h4 <;> try rfl
  simp [h1, h2, h3, h4] at h

/-- A concrete catalog entry used to instantiate theorems (an Apple handset;
`Product.make` derives its brand from the name). -/
def demoIphone : Product :=
  Product.make "iPhone 15 Pro" "The latest iPhone with the A17 chip"
    "https://example.com/iphone-15-pro" ["128GB", "256GB"] ["5G", "Pro camera"] (some 999)

/-- A second concrete catalog entry (a Samsung handset). -/
def demoGalaxy : Product :=
  Product.make "Samsung Galaxy S24" "Flagship Samsung phone with AI"
    "https://example.com/galaxy-s24" ["256GB"] ["5G"] (some 899)

/-- A concrete one-session store used to instantiate theorems. -/
def demoStore : SessionStore := [("s1", freshSession "s1")]

/-- Claim C1, counterexample: the claim says that while in INITIAL only the
INITIAL trigger (the insurance confirmation sentence) can fire, any other
reply leaving the state unchanged; but the code reacts to the watch trigger
phrase from INITIAL as well, jumping straight to WATCH_UPSELL, a state that
is neither INITIAL nor its documented successor INSURANCE_UPSELL. -/
theorem c1_per_state_table_counterexample :
    nextState ConvState.initial
        "No problem. Finally, would you like to pair your new phone with a watch?"
      = ConvState.watch
    ∧ ConvState.watch ≠ ConvState.initial
    ∧ ConvState.watch ≠ ConvState.insurance :=
  ⟨by decide, by decide, by decide⟩

/-- Claim C1, amended: the next dialogue state is decided by one fixed GLOBAL
ordered list of literal trigger substrings applied identically in every
state — when some trigger matches the assistant reply, the resulting state
does not depend on the current state at all — and a reply containing no
trigger phrase leaves the state unchanged. -/
theorem c1_global_trigger_table (s1 s2 : ConvState) (text : String) :
    (hasTrigger text = false → nextState s1 text = s1)
    ∧ (hasTrigger text = true → nextState s1 text = nextState s2 text) :=
  ⟨nextState_of_not_hasTrigger s1 text, nextState_indep_of_hasTrigger s1 s2 text⟩

/-- Witness for the amended C1 at a concrete trigger-free reply. -/
theorem c1_global_trigger_table_witness :
    nextState ConvState.initial "Can you tell me more about storage?"
      = ConvState.initial :=
  (c1_global_trigger_table ConvState.initial ConvState.final
    "Can you tell me more about storage?").1 (by decide)

/-- Claim C2, counterexample: FINAL is not absorbing — a reply containing the
insurance trigger sentence moves a FINAL session back to INSURANCE_UPSELL. -/
theorem c2_final_not_absorbing_counterexample :
    nextState ConvState.final insuranceTrigger = ConvState.insurance
    ∧ ConvState.insurance ≠ ConvState.final :=
  ⟨by decide, by decide⟩

/-- Claim C2, amended: a session in FINAL stays in FINAL for every reply
containing no trigger phrase, but FINAL is not absorbing: a reply containing
an earlier trigger phrase (here the insurance confirmation sentence)
transitions the session out of FINAL. -/
theorem c2_final_trigger_free_stability (text : String) :
    (hasTrigger text = false → nextState ConvState.final text = ConvState.final)
    ∧ nextState ConvState.final insuranceTrigger = ConvState.insurance :=
  ⟨nextState_of_not_hasTrigger ConvState.final text, by decide⟩

/-- Witness for the amended C2 at a concrete trigger-free reply. -/
theorem c2_final_trigger_free_stability_witness :
    nextState ConvState.final "Thank you for chatting with me today." = ConvState.final :=
  (c2_final_trigger_free_stability "Thank you for chatting with me today.").1 (by decide)

/-- Claim C3: for every query and result limit, when no product embeddings
are loaded (`product_embeddings is None`), `search` returns exactly the same
ranked sequence, scores included, as the lexical `search_simple`, whatever
the similarity oracle and embedding provider would do. -/
theorem c3_search_fallback_no_embeddings (cosSim : Vec → Vec → Int)
    (products : List Product) (embedQuery : String → Except String Vec)
    (query : String) (k : Nat) :
    search cosSim ⟨products, none⟩ embedQuery query k
      = search_simple products query k := rfl

/-- Claim C4: for every non-empty query, `search_simple` scores each product
by the weighted substring formula `lexScore` (name +5, brand +4, description
+2, +3 per matching feature, exact brand equality +10, any query token in
the name +3, case-insensitively), excludes products with non-positive total
score, sorts descending by score with ties kept in catalog insertion order
(the output equals the stable descending sort of the score-filtered catalog,
and that sort preserves the catalog order inside every score class), and
returns at most `k` results. -/
theorem c4_search_simple_spec (products : List Product) (query : String) (k : Nat)
    (hq : query.data ≠ []) :
    (∀ r ∈ search_simple products query k,
        0 < r.score ∧ r.score = lexScore (pyLower query) r.product)
    ∧ (search_simple products query k).Pairwise (fun a b => b.score ≤ a.score)
    ∧ (search_simple products query k).length ≤ k
    ∧ search_simple products query k
        = (sortByKeyDesc SearchResult.score (products.filterMap (fun p =>
            if 0 < lexScore (pyLower query) p
              then some (⟨p, lexScore (pyLower query) p⟩ : SearchResult)
              else none))).take k
    ∧ (∀ c : Int,
        (sortByKeyDesc SearchResult.score (products.filterMap (fun p =>
            if 0 < lexScore (pyLower query) p
              then some (⟨p, lexScore (pyLower query) p⟩ : SearchResult)
              else none))).filter (fun r => decide (r.score = c))
          = (products.filterMap (fun p =>
            if 0 < lexScore (pyLower query) p
              then some (⟨p, lexScore (pyLower query) p⟩ : SearchResult)
              else none)).filter (fun r => decide (r.score = c))) := by
  have hqe : query.data.isEmpty = false := by
    cases hd : query.data with
    | nil => exact absurd hd hq
    | cons c t => rfl
  have heq : search_simple products query k
      = (sortByKeyDesc SearchResult.score (products.filterMap (fun p =>
          if 0 < lexScore (pyLower query) p
            then some (⟨p, lexScore (pyLower query) p⟩ : SearchResult)
            else none))).take k := by
    unfold search_simple
    rw [hqe]
    cases hp : products.isEmpty with
    | true =>
      rw [List.isEmpty_iff] at hp
      subst hp
      simp [sortByKeyDesc]
    | false => rfl
  refine ⟨?_, ?_, ?_, heq, ?_⟩
  · intro r hr
    rw [heq] at hr
    have hr2 := List.mem_of_mem_take hr
    rw [mem_sortByKeyDesc] at hr2
    rw [List.mem_filterMap] at hr2
    obtain ⟨p, _, hsome⟩ := hr2
    by_cases h0 : 0 < lexScore (pyLower query) p
    · rw [if_pos h0] at hsome
      cases hsome
      exact ⟨h0, rfl⟩
    · rw [if_neg h0] at hsome
      cases hsome
  · rw [heq]
    exact (pairwise_sortByKeyDesc SearchResult.score _).sublist (List.take_sublist k _)
  · rw [heq, List.length_take]
    exact min_le_left k _
  · intro c
    exact filter_sortByKeyDesc SearchResult.score _ c

/-- Witness for C4: a concrete two-product catalog and the query "apple". -/
theorem c4_search_simple_spec_witness :
    (search_simple [demoIphone, demoGalaxy] "apple" 3).length ≤ 3 :=
  (c4_search_simple_spec [demoIphone, demoGalaxy] "apple" 3 (by decide)).2.2.1

/-- Claim C5: when the completion call raises, `process_message` returns the
fixed apology message, the session store keeps only the session-creation
effect of `_get_or_create_session`, and any pre-existing session under the
id is left exactly as it was: same state, same turns, nothing appended. -/
theorem c5_completion_failure_preserves_session (store : SessionStore)
    (message sid : String) (searchResults : List SearchResult) (e : String)
    (persistOk : Bool) :
    (processMessage store message sid searchResults (Except.error e) persistOk).2
        = apologyResponse
    ∧ (processMessage store message sid searchResults (Except.error e) persistOk).1
        = (getOrCreateSession store sid).1
    ∧ (∀ s : Session, List.lookup sid store = some s →
        List.lookup sid
            (processMessage store message sid searchResults (Except.error e) persistOk).1
          = some s) := by
  refine ⟨rfl, rfl, ?_⟩
  intro s h
  show List.lookup sid (getOrCreateSession store sid).1 = some s
  rw [getOrCreateSession_of_found store sid s h]
  exact h

/-- Witness for C5 on a concrete store with one fresh session. -/
theorem c5_completion_failure_preserves_session_witness :
    List.lookup "s1" (processMessage demoStore "hi" "s1" [] (Except.error "boom") true).1
      = some (freshSession "s1") :=
  (c5_completion_failure_preserves_session demoStore "hi" "s1" [] "boom" true).2.2
    (freshSession "s1") (by decide)

/-- Claim C6: the claim (and the spec) award a +5 in-budget bonus to a
product whose parsed monthly price equals `budget_max`; in the code the
budget block reads `product.monthly_cost`, an attribute the `Product`
dataclass does not define, and the resulting AttributeError is silenced by
the bare `except: pass`, so the preference score is entirely independent of
`budget_min`/`budget_max` and no product ever receives the in-budget bonus
(or the over-budget penalty): a brand-matching product scores 10, never
10 + 5, no matter the budget. -/
theorem c6_budget_bonus_never_applied :
    (∀ (prefs : PrefDict) (a b : Option Int) (p : Product),
        prefScore { prefs with budget_min := a, budget_max := b } p = prefScore prefs p)
    ∧ search_by_preferences [demoIphone]
        { brand_preference := some "Apple", budget_min := some 0, budget_max := some 30 } 5
        = Except.ok [⟨demoIphone, 10⟩] :=
  ⟨fun _ _ _ _ => rfl, rfl⟩

/-- Claim C7, counterexample: with a successful completion ("Hello there.")
but a failing snapshot write, the caller does NOT receive the generated
response text — the top-level handler returns the apology result instead. -/
theorem c7_persistence_failure_counterexample :
    (processMessage [] "hi" "s1" [] (Except.ok "Hello there.") false).2
        = apologyResponse
    ∧ apologyResponse.response ≠ "Hello there." :=
  ⟨rfl, by decide⟩

/-- Claim C7, amended: when the completion succeeds but persisting the
snapshot fails, the failure is caught by the same catch-all handler as every
other failure, so the caller receives the fixed apology message (without
recommendations) instead of the generated text; the in-memory session
nevertheless keeps the fully applied turn: both turns are appended and the
state transition has been taken. -/
theorem c7_persistence_failure_behavior (store : SessionStore) (message sid : String)
    (searchResults : List SearchResult) (text : String) :
    (processMessage store message sid searchResults (Except.ok text) false).2
        = apologyResponse
    ∧ List.lookup sid
          (processMessage store message sid searchResults (Except.ok text) false).1
        = some (applyTurn (getOrCreateSession store sid).2 message text
            (if (getOrCreateSession store sid).2.state = ConvState.initial
              then searchResults else []))
    ∧ (applyTurn (getOrCreateSession store sid).2 message text
          (if (getOrCreateSession store sid).2.state = ConvState.initial
            then searchResults else [])).turns.length
        = (getOrCreateSession store sid).2.turns.length + 2
    ∧ (applyTurn (getOrCreateSession store sid).2 message text
          (if (getOrCreateSession store sid).2.state = ConvState.initial
            then searchResults else [])).state
        = nextState (getOrCreateSession store sid).2.state text := by
  refine ⟨rfl, ?_, ?_, rfl⟩
  · show List.lookup sid (updateStore (getOrCreateSession store sid).1 sid _) = _
    rw [lookup_updateStore, lookup_getOrCreateSession]
    rfl
  · simp [applyTurn]

/-- Claim C8, counterexample: an embedding-provider failure during embedding
computation at initialization/refresh IS raised out of the search engine as
a RuntimeError (`_initialize_search` re-raises), contradicting that no
embedding-provider error is ever surfaced. -/
theorem c8_init_failure_counterexample :
    initSearch [demoIphone] none (fun _ => Except.error "connection failed") none
      = Except.error ("Error initializing OpenAI search: "
          ++ ("Failed to generate embeddings: " ++ "connection failed")) := rfl

/-- Claim C8, amended: a provider failure at QUERY time is recovered locally
(`search` falls back to the lexical `search_simple` and raises nothing), but
a provider failure while (re)computing embeddings in `_initialize_search` —
non-empty catalog, no usable cache — propagates out of the engine as a
RuntimeError. -/
theorem c8_embedding_error_policy (cosSim : Vec → Vec → Int) (st : EngineState)
    (embedQuery : String → Except String Vec) (query : String) (k : Nat) (e : String)
    (p : Product) (ps : List Product) (efn : String → String) (prev : Option (List Vec)) :
    (embedQuery query = Except.error e →
      search cosSim st embedQuery query k = search_simple st.products query k)
    ∧ initSearch (p :: ps) none (fun s => Except.error (efn s)) prev
        = Except.error ("Error initializing OpenAI search: "
            ++ ("Failed to generate embeddings: " ++ efn p.getSearchableText)) := by
  constructor
  · intro h
    unfold search search_advanced
    cases st.productEmbeddings with
    | none => rfl
    | some embs =>
      cases hp : st.products.isEmpty with
      | true => simp [hp]
      | false => simp [hp, h]
  · rfl

/-- Witness for the amended C8: a failing provider at query time on a
one-product engine with loaded embeddings falls back to lexical search. -/
theorem c8_embedding_error_policy_witness :
    search (fun _ _ => 0) ⟨[demoIphone], some [[1]]⟩ (fun _ => Except.error "down")
        "apple" 5
      = search_simple [demoIphone] "apple" 5 :=
  (c8_embedding_error_policy (fun _ _ => 0) ⟨[demoIphone], some [[1]]⟩
    (fun _ => Except.error "down") "apple" 5 "down" demoIphone [] id none).1 rfl

/-- Claim C9: the claim says `search_by_preferences` never raises and applies
the data-usage band and storage bonuses; in the code, any preferences dict
whose `data_usage` is "unlimited"/"heavy"/"light" makes the band comparison
read the nonexistent `product.data_allowance` attribute, and a truthy
`storage_preference` reads the nonexistent `product.storage`, so on any
non-empty catalog the call raises an uncaught AttributeError instead of
returning. -/
theorem c9_preferences_raise_attribute_error :
    search_by_preferences [demoIphone] { data_usage := some "unlimited" } 5
        = Except.error dataAllowanceErr
    ∧ search_by_preferences [demoIphone] { data_usage := some "heavy" } 5
        = Except.error dataAllowanceErr
    ∧ search_by_preferences [demoIphone] { data_usage := some "light" } 5
        = Except.error dataAllowanceErr
    ∧ search_by_preferences [demoIphone] { storage_preference := some "128GB" } 5
        = Except.error storageErr :=
  ⟨rfl, rfl, rfl, rfl⟩

/-- Claim C10: for a session id not present in the store, `get_session_info`
returns the error dict ("Session not found"); the store is never modified by
`get_session_info` (for any id, known or not), so sessions are only ever
created through `process_message`. -/
theorem c10_get_session_info_unknown (store : SessionStore) (sid : String) :
    (getSessionInfo store sid).1 = store
    ∧ (List.lookup sid store = none →
        (getSessionInfo store sid).2 = InfoResult.error "Session not found") := by
  constructor
  · unfold getSessionInfo
    cases List.lookup sid store <;> rfl
  · intro h
    simp [getSessionInfo, h]

/-- Witness for C10 at a concrete store and an unknown id. -/
theorem c10_get_session_info_unknown_witness :
    (getSessionInfo demoStore "unknown").2 = InfoResult.error "Session not found" :=
  (c10_get_session_info_unknown demoStore "unknown").2 (by decide)
